import Mathlib

/-!
Verification of the retrieval-and-conversation orchestration layer of the
crypto-news-analyst backend: a shallow embedding, in Lean, of the session
store (`app/services/session.py`), the search-decision heuristic
(`app/services/rag_agent.py`), the hybrid search service
(`app/services/search.py`), the moderation gate
(`app/services/moderation.py`), the `/api/ask` route (`app/routes/ask.py`)
and the SSE stream generator (`app/services/sse.py`), together with proofs
of the documented behavioural properties.

Conventions of the embedding: Python `datetime` values are modelled as
abstract clock ticks (`Nat` for the session store, where only differences
against a timeout matter; `ℚ` POSIX timestamps for article dates); Python
floats are modelled as `ℚ`; functions that can raise return
`Except String _`; external collaborators (Qdrant, the embedding model,
the LLM, the toxicity classifier) appear as explicit inputs holding the
value they returned, or the exception they raised, on the call being
modelled.
-/

namespace Session

/-- Messages stored in a session: langchain `HumanMessage` / `AIMessage`
(`role` is `user` resp. `assistant`). -/
inductive BaseMessage
  | human (content : String)
  | ai (content : String)
deriving DecidableEq, Repr

/-- `SessionConfig` (session.py lines 12-19); times are in the same
abstract unit as the model clock. -/
structure SessionConfig where
  max_messages_per_session : Nat := 50
  session_timeout_minutes : Nat := 60
  max_total_sessions : Nat := 10000
deriving DecidableEq, Repr

/-- `SessionData` (session.py lines 22-29). -/
structure SessionData where
  session_id : String
  messages : List BaseMessage := []
  created_at : Nat
  last_accessed : Nat
  message_count : Nat := 0
deriving DecidableEq, Repr

/-- The dict held by `InMemorySessionStorage`, as an insertion-ordered
association list. -/
abbrev Storage := List (String × SessionData)

/-- `InMemorySessionStorage.get_session`. -/
def get_session (store : Storage) (session_id : String) : Option SessionData :=
  (store.find? (fun p => p.1 == session_id)).map Prod.snd

/-- `InMemorySessionStorage.save_session`: dict assignment, replacing in
place when the key exists, appending otherwise. -/
def save_session (store : Storage) (d : SessionData) : Storage :=
  if (store.find? (fun p => p.1 == d.session_id)).isSome then
    store.map (fun p => if p.1 == d.session_id then (d.session_id, d) else p)
  else
    store ++ [(d.session_id, d)]

/-- `InMemorySessionStorage.delete_session`. -/
def delete_session (store : Storage) (session_id : String) : Storage :=
  store.filter (fun p => !(p.1 == session_id))

/-- A session is expired when `now - last_accessed > timeout`
(session.py line 269; truncated subtraction matches the Python
comparison, a non-positive timedelta never exceeds the timeout). -/
def isExpired (cfg : SessionConfig) (now : Nat) (d : SessionData) : Bool :=
  cfg.session_timeout_minutes < now - d.last_accessed

/-- `SessionManager.cleanup_expired_sessions` (session.py lines 256-287):
removes expired sessions, returns the remaining store and the number
removed. -/
def cleanup_expired_sessions (cfg : SessionConfig) (now : Nat) (store : Storage) :
    Storage × Nat :=
  (store.filter (fun p => !isExpired cfg now p.2),
   (store.filter (fun p => isExpired cfg now p.2)).length)

/-- A freshly created session: `SessionData(session_id=session_id)` with
`created_at`/`last_accessed` defaulting to the current time. -/
def newSession (session_id : String) (now : Nat) : SessionData :=
  { session_id := session_id, messages := [], created_at := now,
    last_accessed := now, message_count := 0 }

/-- `SessionManager.get_messages` (session.py lines 140-184). Returns the
storage after the call together with the returned history, or the raised
error. The expiry sweep's removals persist even when creation then fails. -/
def get_messages (cfg : SessionConfig) (now : Nat) (store : Storage)
    (session_id : String) : Storage × Except String (List BaseMessage) :=
  if session_id = "" then
    (store, .error "Invalid session_id")
  else if 100 < session_id.length then
    (store, .error "session_id too long (max 100 characters)")
  else
    match get_session store session_id with
    | some session_data =>
        let touched := { session_data with last_accessed := now }
        (save_session store touched, .ok session_data.messages)
    | none =>
        if cfg.max_total_sessions ≤ store.length then
          let store₁ := (cleanup_expired_sessions cfg now store).1
          if cfg.max_total_sessions ≤ store₁.length then
            (store₁, .error "Session limit reached")
          else
            (save_session store₁ (newSession session_id now), .ok [])
        else
          (save_session store (newSession session_id now), .ok [])

/-- The message object built by `add_message` from a validated role. -/
def mkMessage (role content : String) : BaseMessage :=
  if role = "user" then .human content else .ai content

/-- The append-then-trim step of `add_message` (session.py lines 212-231):
append the new message, bump the counter and the access time, and when the
list now exceeds `max_messages_per_session` drop the oldest excess
messages. -/
def appendTrim (cfg : SessionConfig) (now : Nat) (s : SessionData)
    (role content : String) : SessionData :=
  let msgs := s.messages ++ [mkMessage role content]
  let msgs :=
    if cfg.max_messages_per_session < msgs.length then
      msgs.drop (msgs.length - cfg.max_messages_per_session)
    else msgs
  { s with messages := msgs, message_count := s.message_count + 1,
           last_accessed := now }

/-- `SessionManager.add_message` (session.py lines 186-239). -/
def add_message (cfg : SessionConfig) (now : Nat) (store : Storage)
    (session_id role content : String) : Storage × Except String Unit :=
  if role ≠ "user" ∧ role ≠ "assistant" then
    (store, .error "Invalid role")
  else if content = "" then
    (store, .error "Message content must be a non-empty string")
  else
    match get_session store session_id with
    | some session_data =>
        (save_session store (appendTrim cfg now session_data role content), .ok ())
    | none =>
        let (store₁, r) := get_messages cfg now store session_id
        match r with
        | .error e => (store₁, .error e)
        | .ok _ =>
            match get_session store₁ session_id with
            | some session_data =>
                (save_session store₁ (appendTrim cfg now session_data role content),
                 .ok ())
            | none => (store₁, .error "session vanished")

/-- One `add_message` call: clock tick, session id, role, content. -/
abbrev CallSpec := Nat × String × String × String

/-- Replay a sequence of `add_message` calls against a store, keeping the
storage state across calls (failed calls leave their partial effects, as
the exceptions do in the Python code). -/
def runAddMessages (cfg : SessionConfig) (store : Storage) :
    List CallSpec → Storage
  | [] => store
  | (now, sid, role, content) :: rest =>
      runAddMessages cfg (add_message cfg now store sid role content).1 rest

end Session

namespace RagAgent

/-- Python `str.lower()`, per character. -/
def pyLower (s : String) : List Char := s.data.map Char.toLower

/-- Python `str.isspace()` for a single character, on the ASCII range. -/
def pyIsSpaceChar (c : Char) : Bool :=
  c = ' ' || c = '\t' || c = '\n' || c = '\r' || c = Char.ofNat 11 || c = Char.ofNat 12

/-- Python `str.strip()`: remove whitespace from both ends. -/
def pyStrip (cs : List Char) : List Char :=
  ((cs.dropWhile pyIsSpaceChar).reverse.dropWhile pyIsSpaceChar).reverse

/-- Python `needle in haystack` on strings: contiguous substring test. -/
def pySubstr (needle : List Char) : List Char → Bool
  | [] => needle.isEmpty
  | c :: rest => needle.isPrefixOf (c :: rest) || pySubstr needle rest

/-- The conversation meta-question keyword list of
`RAGAgentService.should_search` (rag_agent.py lines 295-303). -/
def conversation_keywords : List String :=
  ["what question did i",
   "what did i ask",
   "what did you say",
   "tell me more about that",
   "that article",
   "you mentioned",
   "you said"]

/-- The greeting list of `RAGAgentService.should_search`
(rag_agent.py line 309). -/
def greetings : List String :=
  ["hello", "hi", "hey", "how are you", "good morning", "good afternoon",
   "good evening"]

/-- `RAGAgentService.should_search` (rag_agent.py lines 290-314): lowercase
and strip the question, refuse to search when a conversation keyword
occurs in it or it starts with a greeting, search otherwise. The
`chat_history` argument is accepted and never read, as in the source. -/
def should_search (question : String)
    (chat_history : Option (List Session.BaseMessage)) : Bool :=
  let question_lower := pyStrip (pyLower question)
  if conversation_keywords.any (fun kw => pySubstr kw.data question_lower) then
    false
  else if greetings.any (fun g => g.data.isPrefixOf question_lower) then
    false
  else
    true

end RagAgent

namespace Search

/-- `Article` (app/models.py): dates carried as optional POSIX timestamps
(the search code guards on their presence). -/
structure Article where
  id : Nat
  title : String
  source : String
  url : String
  published_date : Option ℚ
  created_at : Option ℚ
deriving DecidableEq, Repr

/-- Metadata of one Qdrant point, as read back by `search`:
`doc.metadata.get("id")`, absent when the payload has no `id` key. -/
structure DocMetadata where
  id : Option Nat
deriving DecidableEq, Repr

/-- `settings.similarity_threshold` (app/config.py line 32):
a tunable minimum relevance score, 0.3 by default. -/
def similarity_threshold : ℚ := Rat.divInt 3 10

/-- The date filter step of `SearchService.search` (search.py lines
313-315): skip when a filter and a publication date are both present and
the article was published before the filter. -/
def skipByDate (date_filter : Option ℚ) (a : Article) : Bool :=
  match date_filter, a.published_date with
  | some f, some p => p < f
  | _, _ => false

/-- The result-collection loop of `SearchService.search` (search.py lines
287-326): walk the scored points in order; skip points with a falsy
article id (`None` or `0`), ids already seen, ids the database cannot
resolve, and articles cut by the date filter; normalize each kept score
against the best score (capped at 1) and record the id as seen. -/
def search_collect (best_score : ℚ) (db : Nat → Option Article)
    (date_filter : Option ℚ) :
    List (DocMetadata × ℚ) → List Nat → List (Article × ℚ)
  | [], _ => []
  | (doc, score) :: rest, seen =>
    match doc.id with
    | none => search_collect best_score db date_filter rest seen
    | some article_id =>
      if article_id = 0 then
        search_collect best_score db date_filter rest seen
      else if article_id ∈ seen then
        search_collect best_score db date_filter rest seen
      else
        match db article_id with
        | none => search_collect best_score db date_filter rest seen
        | some article =>
          if skipByDate date_filter article then
            search_collect best_score db date_filter rest seen
          else
            let normalized_score :=
              if 0 < best_score then min 1 (score / best_score) else score
            (article, normalized_score) ::
              search_collect best_score db date_filter rest (article_id :: seen)

/-- The sort key of `SearchService.search` (search.py lines 332-336):
negated score, then negated ingestion timestamp (0 when absent), then
negated publication timestamp (0 when absent); Python sorts ascending on
this tuple. -/
def sortKey (r : Article × ℚ) : ℚ × ℚ × ℚ :=
  (-r.2,
   match r.1.created_at with | some t => -t | none => 0,
   match r.1.published_date with | some t => -t | none => 0)

/-- Ascending lexicographic comparison of sort keys, as a boolean
relation for the stable sort. -/
def sortLE (a b : Article × ℚ) : Bool :=
  decide ((sortKey a).1 < (sortKey b).1) ||
    (decide ((sortKey a).1 = (sortKey b).1) &&
      (decide ((sortKey a).2.1 < (sortKey b).2.1) ||
        (decide ((sortKey a).2.1 = (sortKey b).2.1) &&
          decide ((sortKey a).2.2 ≤ (sortKey b).2.2))))

/-- `SearchService.search` (search.py lines 249-344), after the staleness
check. `index_loaded` is whether `self.vectorstore` is set;
`semantic_docs_with_scores` is the outcome of
`self.vectorstore.similarity_search_with_score(query, k=...)` — the list
it returned, or the exception it raised (embedding failures included),
which the surrounding `except` turns into an empty result list. The best
score is the first returned score, `1.0` on an empty return; results are
stable-sorted ascending on `sortKey` and truncated to `top_k`. -/
def search (index_loaded : Bool)
    (semantic_docs_with_scores : Except String (List (DocMetadata × ℚ)))
    (db : Nat → Option Article) (top_k : Nat) (date_filter : Option ℚ) :
    List (Article × ℚ) :=
  if !index_loaded then []
  else
    match semantic_docs_with_scores with
    | .error _ => []
    | .ok docs =>
        let best_score := match docs with | [] => 1 | (_, s) :: _ => s
        let results := search_collect best_score db date_filter docs []
        (results.mergeSort sortLE).take top_k

/-- The part of a `SearchService` instance that the staleness check reads
and the reload writes: whether `self.vectorstore` is set, and the cached
`self._index_point_count`. -/
structure IndexState where
  vectorstore_loaded : Bool
  index_point_count : Option Nat
deriving DecidableEq, Repr

/-- The Qdrant server as seen by one check/reload episode: whether the
collection exists, what `_get_collection_point_count` returns (`none` when
the call fails), and whether `from_existing_collection` succeeds. -/
structure CorpusEnv where
  collection_exists : Bool
  current_point_count : Option Nat
  load_ok : Bool
deriving DecidableEq, Repr

/-- `SearchService._should_reload_index` (search.py lines 155-166). -/
def should_reload_index (s : IndexState) (env : CorpusEnv) : Bool :=
  if !s.vectorstore_loaded || s.index_point_count.isNone then
    true
  else
    match env.current_point_count with
    | none => false
    | some current => current != s.index_point_count.getD 0

/-- `SearchService.load_index` (search.py lines 168-247): fails (returning
`false`, state unchanged) when the collection is missing or loading
raises; on success sets the vectorstore and caches the current point
count. -/
def load_index (s : IndexState) (env : CorpusEnv) : IndexState × Bool :=
  if !env.collection_exists then (s, false)
  else if env.load_ok then
    ({ vectorstore_loaded := true, index_point_count := env.current_point_count },
     true)
  else (s, false)

/-- The staleness check at the top of `search` (search.py lines 267-273):
when `_should_reload_index` reports a change, run `load_index`; the
returned flag records whether a reload was performed. -/
def reload_if_stale (s : IndexState) (env : CorpusEnv) : IndexState × Bool :=
  if should_reload_index s env then ((load_index s env).1, true)
  else (s, false)

end Search

namespace Moderation

/-- `ModerationService.TOXICITY_THRESHOLD = 0.5` (moderation.py line 22). -/
def TOXICITY_THRESHOLD : ℚ := Rat.divInt 1 2

/-- `ModerationService.MAX_QUESTION_LENGTH = 500` (moderation.py line 26). -/
def MAX_QUESTION_LENGTH : Nat := 500

/-- `ModerationService.REPEATED_CHAR_LIMIT = 10` (moderation.py line 27). -/
def REPEATED_CHAR_LIMIT : Nat := 10

/-- Python `c.isalnum() or not c.isascii()` complement, as used by the
spam check: a character counts as special when it is ASCII and neither
alphanumeric nor whitespace. -/
def isSpecialChar (c : Char) : Bool :=
  !c.isAlphanum && !(RagAgent.pyIsSpaceChar c) && decide (c.toNat < 128)

/-- Whether the first `n` characters of the list all equal `c`. -/
def headRunIs (c : Char) : Nat → List Char → Bool
  | 0, _ => true
  | _ + 1, [] => false
  | n + 1, d :: rest => c = d && headRunIs c n rest

/-- The regex `(.)\1{9,}`: some character occurs at least
`REPEATED_CHAR_LIMIT` times in a row. -/
def hasRepeatedRun : List Char → Bool
  | [] => false
  | c :: rest => headRunIs c (REPEATED_CHAR_LIMIT - 1) rest || hasRepeatedRun rest

/-- `ModerationService._has_spam_pattern` (moderation.py lines 108-135):
ten identical characters in a row, or more than 50% special characters
(the float ratio comparison `count / len > 0.5` is exactly
`2 * count > len`). -/
def has_spam_pattern (text : String) : Bool :=
  hasRepeatedRun text.data ||
    (decide (0 < text.length) &&
      decide (text.length < 2 * (text.data.filter isSpecialChar).length))

/-- `ModerationService._run_toxicity_check` (moderation.py lines 137-166)
applied to the list of `(label, score)` items the classifier returned:
a label containing "toxic" above the threshold flags "toxic content", any
other label above the threshold flags "inappropriate content (label)". -/
def run_toxicity_check (classifier_result : List (String × ℚ)) : List String :=
  classifier_result.foldl
    (fun reasons item =>
      let label := String.mk (RagAgent.pyLower item.1)
      if RagAgent.pySubstr "toxic".data label.data ∧ TOXICITY_THRESHOLD < item.2 then
        reasons ++ ["toxic content"]
      else if TOXICITY_THRESHOLD < item.2 then
        reasons ++ ["inappropriate content (" ++ label ++ ")"]
      else reasons)
    []

/-- The duplicate-removing loop of `is_safe` (moderation.py lines 96-100):
keep the first occurrence of each reason, preserving order. -/
def dedupReasons : List String → List String → List String
  | acc, [] => acc
  | acc, r :: rest =>
      if r ∈ acc then dedupReasons acc rest else dedupReasons (acc ++ [r]) rest

/-- Comma-join of the reason list, as in `", ".join(unique_reasons)`. -/
def joinReasons : List String → String
  | [] => ""
  | [r] => r
  | r :: rest => r ++ ", " ++ joinReasons rest

/-- `ModerationService.is_safe` (moderation.py lines 60-106).
`classifier_result` is what the toxicity pipeline returned for this text;
`openai_reasons` is what `_run_openai_check` produced when OpenAI
moderation is configured and the call succeeded (`none` when it is not
configured or the call raised, which `is_safe` catches and ignores). -/
def is_safe (classifier_result : List (String × ℚ))
    (openai_reasons : Option (List String)) (text : String) : Bool × String :=
  if text = "" ∨ RagAgent.pyStrip text.data = [] then
    (false, "Question cannot be empty")
  else if MAX_QUESTION_LENGTH < text.length then
    (false, "Question must not exceed 500 characters")
  else if has_spam_pattern text then
    (false, "Question contains spam patterns")
  else
    let all_flagged_reasons :=
      run_toxicity_check classifier_result ++ (openai_reasons.getD [])
    if all_flagged_reasons = [] then (true, "")
    else
      (false,
       "Question contains inappropriate content: " ++
         joinReasons (dedupReasons [] all_flagged_reasons))

end Moderation

namespace Wire

/-- The JSON values the backend serializes with `json.dumps`. -/
inductive Json
  | null
  | bool (b : Bool)
  | num (n : ℚ)
  | str (s : String)
  | arr (items : List Json)
  | obj (fields : List (String × Json))

/-- JSON string escaping of one character, as `json.dumps` performs it. -/
def escapeChar (c : Char) : List Char :=
  if c = '"' then ['\\', '"']
  else if c = '\\' then ['\\', '\\']
  else if c = '\n' then ['\\', 'n']
  else if c = '\t' then ['\\', 't']
  else if c = '\r' then ['\\', 'r']
  else [c]

/-- JSON rendering of a string literal. -/
def renderString (s : String) : String :=
  "\"" ++ String.mk (s.data.flatMap escapeChar) ++ "\""

/-- JSON rendering of a rational score: numerator over denominator kept
abstractly as a decimal-free fraction (the exact digits are irrelevant to
the framing protocol, only that the rendering is a JSON number). -/
def renderNum (n : ℚ) : String :=
  if n.den = 1 then toString n.num else toString n.num ++ "e-" ++ toString n.den

mutual

/-- Serialization of a JSON value, modelling `json.dumps`. -/
def Json.render : Json → String
  | .null => "null"
  | .bool true => "true"
  | .bool false => "false"
  | .num n => renderNum n
  | .str s => renderString s
  | .arr items => "[" ++ renderList items ++ "]"
  | .obj fields => "\x7b" ++ renderFields fields ++ "\x7d"

/-- Comma-separated rendering of array items. -/
def renderList : List Json → String
  | [] => ""
  | [j] => j.render
  | j :: rest => j.render ++ ", " ++ renderList rest

/-- Comma-separated rendering of object fields. -/
def renderFields : List (String × Json) → String
  | [] => ""
  | [(k, j)] => renderString k ++ ": " ++ j.render
  | (k, j) :: rest => renderString k ++ ": " ++ j.render ++ ", " ++ renderFields rest

end

end Wire

namespace Sse

/-- One entry of the `sources` event payload (sse.py line 62, built by
`get_search_results_for_sources`, rag_agent.py lines 273-284). -/
structure SourceInfo where
  id : Nat
  title : String
  source : String
  url : String
  published_date : Option String
  similarity_score : ℚ
deriving DecidableEq, Repr

/-- JSON shape of one source entry. -/
def sourceJson (s : SourceInfo) : Wire.Json :=
  .obj [("id", .num (s.id : ℚ)),
        ("title", .str s.title),
        ("source", .str s.source),
        ("url", .str s.url),
        ("published_date",
          match s.published_date with | some d => .str d | none => .null),
        ("similarity_score", .num s.similarity_score)]

/-- The events `generate_sse_response` (sse.py) can emit. -/
inductive SSEEvent
  | sources (data : List SourceInfo)
  | content (chunk : String)
  | errorEvent (msg : String)
  | doneSentinel
deriving DecidableEq, Repr

/-- The `data:` payload of an event: the `json.dumps` output for the three
JSON events, the literal sentinel for `[DONE]`. -/
def eventPayload : SSEEvent → String
  | .sources data => (Wire.Json.obj [("sources", .arr (data.map sourceJson))]).render
  | .content chunk => (Wire.Json.obj [("content", .str chunk)]).render
  | .errorEvent msg => (Wire.Json.obj [("error", .str msg)]).render
  | .doneSentinel => "[DONE]"

/-- The wire frame of one event: `data: <payload>\n\n`. -/
def frameOf (e : SSEEvent) : String := "data: " ++ eventPayload e ++ "\n\n"

/-- Terminal frames: the `[DONE]` sentinel and the error event. -/
def isTerminal : SSEEvent → Bool
  | .errorEvent _ => true
  | .doneSentinel => true
  | _ => false

/-- One execution of the generator in sse.py, as the outcomes of its
collaborator calls: the history fetch (read only when a session id is
present; `get_messages` can raise), the sources lookup
(`get_search_results_for_sources` catches internally and never raises),
the chunk stream with an optional exception after the listed chunks, and
an optional exception from the persistence step. -/
structure StreamExec where
  session_id : Option String
  history_result : Except String (List Session.BaseMessage)
  sources_data : List SourceInfo
  chunks : List String
  stream_error : Option String
  persist_error : Option String

/-- The events after the chunk loop of sse.py (lines 81-96): a stream
exception becomes the terminal `error` event; otherwise the persistence
step runs (only with a session id and a non-empty accumulated response)
and a failure there becomes the terminal `error` event, else the `[DONE]`
sentinel closes the stream. -/
def tailEvents (session_id : Option String) (full_response : String)
    (stream_error persist_error : Option String) : List SSEEvent :=
  match stream_error with
  | some e => [.errorEvent e]
  | none =>
      if session_id.isSome ∧ full_response ≠ "" then
        match persist_error with
        | some e => [.errorEvent e]
        | none => [.doneSentinel]
      else [.doneSentinel]

/-- `generate_sse_response` (sse.py lines 14-96): history, then the
`sources` event, then one `content` event per non-empty chunk, then the
tail of the stream; any exception is caught by the surrounding `except`
and emitted as a single `error` event ending the stream (a history-fetch
failure happens before the first `yield`, so the error event is then the
whole stream). -/
def generate_sse_response (ex : StreamExec) : List SSEEvent :=
  match ex.session_id, ex.history_result with
  | some _, .error e => [.errorEvent e]
  | _, _ =>
    let kept := ex.chunks.filter (fun c => c ≠ "")
    .sources ex.sources_data ::
      kept.map SSEEvent.content ++
      tailEvents ex.session_id (String.join kept) ex.stream_error ex.persist_error

/-- The raw frame strings the generator yields. -/
def sse_frames (ex : StreamExec) : List String :=
  (generate_sse_response ex).map frameOf

end Sse

namespace AskRoute

/-- `published_date.isoformat() + "Z"` on a timestamp; the digits of the
rendering are irrelevant to every property proved here, only that a
definite string is attached. -/
def isoZ (t : ℚ) : String := toString t.num ++ "Z"

/-- The `articles_data` list built in ask.py lines 67-77 from the search
results: one entry per result, with the score looked up again by article
id (`next(...)`, defaulting to 0.0). -/
def articlesData (rs : List (Search.Article × ℚ)) : List Sse.SourceInfo :=
  rs.map (fun p =>
    { id := p.1.id, title := p.1.title, source := p.1.source, url := p.1.url,
      published_date := p.1.published_date.map isoZ,
      similarity_score := ((rs.find? (fun q => q.1.id == p.1.id)).map Prod.snd).getD 0 })

/-- Matching of `[Article\s+\d+]` at the head of a lowercased character
list (the bracketed citation pattern of ask.py line 104). -/
def citationAt : List Char → Bool
  | '[' :: rest =>
    (match rest with
     | 'a' :: 'r' :: 't' :: 'i' :: 'c' :: 'l' :: 'e' :: rest₁ =>
        let sp := rest₁.takeWhile RagAgent.pyIsSpaceChar
        let rest₂ := rest₁.dropWhile RagAgent.pyIsSpaceChar
        let dg := rest₂.takeWhile Char.isDigit
        (match sp, dg, rest₂.dropWhile Char.isDigit with
         | _ :: _, _ :: _, ']' :: _ => true
         | _, _, _ => false)
     | _ => false)
  | _ => false

/-- Whether the predicate holds at some position of the list. -/
def anyPosition (p : List Char → Bool) : List Char → Bool
  | [] => p []
  | c :: rest => p (c :: rest) || anyPosition p rest

/-- `re.search(r"\[Article\s+\d+\]", full_response, re.IGNORECASE)`
(ask.py line 104). -/
def has_citations (full_response : String) : Bool :=
  anyPosition citationAt (RagAgent.pyLower full_response)

/-- `explicit_no_info_patterns` (ask.py lines 111-115). -/
def explicit_no_info_patterns : List String :=
  ["i don\x27t have information about that in the recent news articles",
   "i don\x27t have recent articles about",
   "couldn\x27t find relevant articles in our database"]

/-- The no-article-information test of ask.py lines 105-120, applied to
the lowercased, stripped response. -/
def has_explicit_no_info (full_response : String) : Bool :=
  let response_lower := RagAgent.pyStrip (RagAgent.pyLower full_response)
  explicit_no_info_patterns.any (fun pat => RagAgent.pySubstr pat.data response_lower)

/-- The events the ask.py generator can emit (it has a `hideSources`
event on top of those of sse.py). -/
inductive AskEvent
  | sources (data : List Sse.SourceInfo)
  | content (chunk : String)
  | hideSources
  | errorEvent (msg : String)
  | doneSentinel
deriving DecidableEq, Repr

/-- One execution of the generator in ask.py: the search result list (the
search call catches internally and never raises), the history fetch, the
chunk stream, the persistence outcome. -/
structure AskStreamExec where
  session_id : Option String
  search_results : List (Search.Article × ℚ)
  history_result : Except String (List Session.BaseMessage)
  chunks : List String
  stream_error : Option String
  persist_error : Option String

/-- `generate_sse_response` of ask.py (lines 27-139): search, the
`sources` event, history (a failure here is caught and ends the stream
with an `error` event), `content` events for non-empty chunks, the
optional `hideSources` event, persistence, `[DONE]`; any exception turns
into a single terminal `error` event. -/
def ask_generate_sse_response (ex : AskStreamExec) : List AskEvent :=
  let sourcesEvt := AskEvent.sources (articlesData ex.search_results)
  match ex.session_id, ex.history_result with
  | some _, .error e => [sourcesEvt, .errorEvent e]
  | _, _ =>
    let kept := ex.chunks.filter (fun c => c ≠ "")
    let full_response := String.join kept
    sourcesEvt ::
      kept.map AskEvent.content ++
      match ex.stream_error with
      | some e => [.errorEvent e]
      | none =>
          (if has_explicit_no_info full_response ∧ ¬ has_citations full_response
           then [AskEvent.hideSources] else []) ++
          (if ex.session_id.isSome ∧ full_response ≠ "" then
             match ex.persist_error with
             | some e => [.errorEvent e]
             | none => [.doneSentinel]
           else [.doneSentinel])

/-- The observable outcome of one `/api/ask` request: the HTTP error or
the streamed events, plus whether the retrieval and generation
collaborators were ever invoked while serving it. -/
structure AskOutcome where
  response : Except (Nat × String) (List AskEvent)
  search_invoked : Bool
  llm_invoked : Bool
deriving Repr

/-- `ask_question` (ask.py lines 142-180): run the moderation check; when
it flags the question raise `HTTPException(400, reason)` — the streaming
generator is never created, so neither retrieval nor generation runs;
otherwise serve (and here also consume) the stream, in which the search
always runs first and the LLM is reached unless the history fetch raised. -/
def ask_question (classifier_result : List (String × ℚ))
    (openai_reasons : Option (List String)) (question : String)
    (ex : AskStreamExec) : AskOutcome :=
  let checked := Moderation.is_safe classifier_result openai_reasons question
  if checked.1 then
    { response := .ok (ask_generate_sse_response ex),
      search_invoked := true,
      llm_invoked :=
        match ex.session_id, ex.history_result with
        | some _, .error _ => false
        | _, _ => true }
  else
    { response := .error (400, checked.2),
      search_invoked := false, llm_invoked := false }

end AskRoute

namespace Session

/-- Every session held in the store keeps its history within the
configured bound. -/
def StoreBounded (cfg : SessionConfig) (store : Storage) : Prop :=
  ∀ p ∈ store, p.2.messages.length ≤ cfg.max_messages_per_session

theorem appendTrim_length_le (cfg : SessionConfig) (now : Nat) (s : SessionData)
    (role content : String) :
    (appendTrim cfg now s role content).messages.length ≤
      cfg.max_messages_per_session := by
  unfold appendTrim
  by_cases h :
      cfg.max_messages_per_session < (s.messages ++ [mkMessage role content]).length
  · simp only [h, if_true, List.length_drop]
    omega
  · simp only [h, if_false]
    omega

theorem appendTrim_messages_eq (cfg : SessionConfig) (now : Nat) (s : SessionData)
    (role content : String) :
    (appendTrim cfg now s role content).messages =
      if cfg.max_messages_per_session < s.messages.length + 1 then
        (s.messages ++ [mkMessage role content]).drop
          (s.messages.length + 1 - cfg.max_messages_per_session)
      else s.messages ++ [mkMessage role content] := by
  unfold appendTrim
  simp [List.length_append]

theorem save_session_bounded {cfg : SessionConfig} {store : Storage}
    {d : SessionData} (hstore : StoreBounded cfg store)
    (hd : d.messages.length ≤ cfg.max_messages_per_session) :
    StoreBounded cfg (save_session store d) := by
  intro p hp
  unfold save_session at hp
  by_cases hfound : (store.find? (fun p => p.1 == d.session_id)).isSome
  · simp only [hfound, if_true, List.mem_map] at hp
    obtain ⟨q, hq, hqe⟩ := hp
    by_cases hmatch : q.1 == d.session_id
    · simp only [hmatch, if_true] at hqe
      exact hqe ▸ hd
    · simp only [hmatch, Bool.false_eq_true, if_false] at hqe
      exact hqe ▸ hstore q hq
  · rw [if_neg hfound] at hp
    rcases List.mem_append.mp hp with hp | hp
    · exact hstore p hp
    · rw [List.mem_singleton] at hp
      exact hp ▸ hd

theorem get_session_mem {store : Storage} {sid : String} {s : SessionData}
    (h : get_session store sid = some s) : ∃ p ∈ store, p.2 = s := by
  unfold get_session at h
  cases hfind : store.find? (fun p => p.1 == sid) with
  | none => rw [hfind] at h; cases h
  | some q =>
      rw [hfind] at h
      exact ⟨q, List.mem_of_find?_eq_some hfind, Option.some_injective _ h⟩

theorem get_messages_store_bounded {cfg : SessionConfig} {now : Nat}
    {store : Storage} {sid : String} (hstore : StoreBounded cfg store) :
    StoreBounded cfg (get_messages cfg now store sid).1 := by
  unfold get_messages
  by_cases h1 : sid = ""
  · simpa [h1] using hstore
  by_cases h2 : 100 < sid.length
  · simpa [h1, h2] using hstore
  cases hget : get_session store sid with
  | some s =>
      simp only [h1, h2, hget, if_false]
      obtain ⟨p, hp, hps⟩ := get_session_mem hget
      refine save_session_bounded hstore ?_
      simpa [hps] using hstore p hp
  | none =>
      have hfiltered : StoreBounded cfg (cleanup_expired_sessions cfg now store).1 :=
        fun p hp => hstore p (List.mem_filter.mp hp).1
      by_cases h3 : cfg.max_total_sessions ≤ store.length
      · by_cases h4 :
            cfg.max_total_sessions ≤ (cleanup_expired_sessions cfg now store).1.length
        · simpa [h1, h2, hget, h3, h4] using hfiltered
        · simp only [h1, h2, hget, h3, h4, if_false, if_true]
          exact save_session_bounded hfiltered (by simp [newSession])
      · simp only [h1, h2, hget, h3, if_false]
        exact save_session_bounded hstore (by simp [newSession])

theorem add_message_store_bounded {cfg : SessionConfig} {now : Nat}
    {store : Storage} {sid role content : String}
    (hstore : StoreBounded cfg store) :
    StoreBounded cfg (add_message cfg now store sid role content).1 := by
  unfold add_message
  by_cases h1 : role ≠ "user" ∧ role ≠ "assistant"
  · simpa [h1] using hstore
  by_cases h2 : content = ""
  · simpa [h1, h2] using hstore
  cases hget : get_session store sid with
  | some s =>
      simp only [h1, h2, hget, if_false]
      exact save_session_bounded hstore (appendTrim_length_le ..)
  | none =>
      have hmid : StoreBounded cfg (get_messages cfg now store sid).1 :=
        get_messages_store_bounded hstore
      simp only [h1, h2, hget, if_false]
      cases hr : (get_messages cfg now store sid).2 with
      | error e => simpa [hr] using hmid
      | ok v =>
          simp only [hr]
          cases hget₁ : get_session (get_messages cfg now store sid).1 sid with
          | none => simpa [hget₁] using hmid
          | some s₁ =>
              simp only [hget₁]
              exact save_session_bounded hmid (appendTrim_length_le ..)

theorem runAddMessages_bounded (cfg : SessionConfig) (calls : List CallSpec) :
    ∀ {store : Storage}, StoreBounded cfg store →
      StoreBounded cfg (runAddMessages cfg store calls) := by
  induction calls with
  | nil => intro store h; exact h
  | cons c rest ih =>
      intro store h
      obtain ⟨now, sid, role, content⟩ := c
      exact ih (add_message_store_bounded h)

end Session

/-- C1: for every session and every sequence of `add_message` calls the
stored history never exceeds `max_messages_per_session`, and an append
that overflows the bound drops exactly the oldest excess messages,
keeping the most recent ones as a suffix in their original order. -/
theorem add_message_fifo_trim :
    (∀ (cfg : Session.SessionConfig) (calls : List Session.CallSpec)
        (sid : String) (s : Session.SessionData),
        Session.get_session (Session.runAddMessages cfg [] calls) sid = some s →
        s.messages.length ≤ cfg.max_messages_per_session) ∧
    (∀ (cfg : Session.SessionConfig) (now : Nat) (s : Session.SessionData)
        (role content : String),
        cfg.max_messages_per_session < s.messages.length + 1 →
        (Session.appendTrim cfg now s role content).messages =
          (s.messages ++ [Session.mkMessage role content]).drop
            (s.messages.length + 1 - cfg.max_messages_per_session) ∧
        (Session.appendTrim cfg now s role content).messages <:+
          s.messages ++ [Session.mkMessage role content]) := by
  constructor
  · intro cfg calls sid s hs
    have hbound := @Session.runAddMessages_bounded cfg calls []
      (by intro p hp; cases hp)
    obtain ⟨p, hp, hps⟩ := Session.get_session_mem hs
    exact hps ▸ hbound p hp
  · intro cfg now s role content hover
    have heq := Session.appendTrim_messages_eq cfg now s role content
    rw [if_pos hover] at heq
    exact ⟨heq, heq ▸ List.drop_suffix _ _⟩

/-- Concrete configuration for the C1 witness: two messages per session. -/
def c1cfg : Session.SessionConfig := ⟨2, 60, 10⟩

/-- Three appends to one session for the C1 witness. -/
def c1calls : List Session.CallSpec :=
  [(0, "s1", "user", "a"), (1, "s1", "assistant", "b"), (2, "s1", "user", "c")]

/-- The session state reached by `c1calls`: the oldest message was
trimmed away. -/
def c1sess : Session.SessionData :=
  { session_id := "s1", messages := [.ai "b", .human "c"], created_at := 0,
    last_accessed := 2, message_count := 3 }

/-- The session state just before the third (overflowing) append. -/
def c1pre : Session.SessionData :=
  { session_id := "s1", messages := [.human "a", .ai "b"], created_at := 0,
    last_accessed := 1, message_count := 2 }

/-- Witness for C1 at a concrete run: three appends against a bound of
two leave the two most recent messages, and the overflowing append drops
exactly the single oldest one. -/
theorem add_message_fifo_trim_witness :
    (Session.get_session (Session.runAddMessages c1cfg [] c1calls) "s1" =
        some c1sess ∧
      c1sess.messages.length ≤ c1cfg.max_messages_per_session) ∧
    (c1cfg.max_messages_per_session < c1pre.messages.length + 1 ∧
      (Session.appendTrim c1cfg 2 c1pre "user" "c").messages =
        (c1pre.messages ++ [Session.mkMessage "user" "c"]).drop
          (c1pre.messages.length + 1 - c1cfg.max_messages_per_session) ∧
      (Session.appendTrim c1cfg 2 c1pre "user" "c").messages <:+
        c1pre.messages ++ [Session.mkMessage "user" "c"]) :=
  ⟨⟨by decide, add_message_fifo_trim.1 c1cfg c1calls "s1" c1sess (by decide)⟩,
   by decide, add_message_fifo_trim.2 c1cfg 2 c1pre "user" "c" (by decide)⟩

namespace Session

theorem find?_map_update (sid : String) (d : SessionData) :
    ∀ store : Storage,
      (store.map (fun p => if p.1 == sid then (sid, d) else p)).find?
          (fun p => p.1 == sid) =
        if (store.find? (fun p => p.1 == sid)).isSome then some (sid, d)
        else none := by
  intro store
  induction store with
  | nil => simp
  | cons q rest ih =>
      by_cases hq : q.1 == sid
      · have hq' : q.1 = sid := by simpa using hq
        simp [List.find?_cons, hq', hq]
      · simp only [List.map_cons, List.find?_cons, hq, if_false]
        simpa [hq] using ih

theorem get_session_save (store : Storage) (d : SessionData) :
    get_session (save_session store d) d.session_id = some d := by
  unfold get_session save_session
  by_cases hfound : (store.find? (fun p => p.1 == d.session_id)).isSome
  · rw [if_pos hfound, find?_map_update, if_pos hfound]
    rfl
  · rw [if_neg hfound, List.find?_append]
    have hnone : store.find? (fun p => p.1 == d.session_id) = none := by
      cases h : store.find? (fun p => p.1 == d.session_id) with
      | none => rfl
      | some _ => exact absurd (by simp [h]) hfound
    simp [hnone]

theorem get_session_filter_none {store : Storage} {sid : String}
    (h : get_session store sid = none) (f : String × SessionData → Bool) :
    get_session (store.filter f) sid = none := by
  unfold get_session at h ⊢
  cases hfind : store.find? (fun p => p.1 == sid) with
  | some q => rw [hfind] at h; cases h
  | none =>
      have hall := List.find?_eq_none.mp hfind
      have : (store.filter f).find? (fun p => p.1 == sid) = none :=
        List.find?_eq_none.mpr (fun x hx => hall x (List.mem_filter.mp hx).1)
      simp [this]

end Session

/-- C8: for an unseen, valid session id, `get_messages` creates the
session when the store is below `max_total_sessions`; at capacity it first
runs the expiry sweep and, if the store is still at capacity, fails with
the capacity error without creating the session (the sweep's deletions
persist); after a successful sweep the session is created in the swept
store. -/
theorem get_messages_capacity
    (cfg : Session.SessionConfig) (now : Nat) (store : Session.Storage)
    (sid : String) (hid : sid ≠ "") (hlen : sid.length ≤ 100)
    (hnew : Session.get_session store sid = none) :
    (store.length < cfg.max_total_sessions →
        Session.get_messages cfg now store sid =
          (Session.save_session store (Session.newSession sid now), .ok []) ∧
        Session.get_session (Session.get_messages cfg now store sid).1 sid =
          some (Session.newSession sid now)) ∧
    (cfg.max_total_sessions ≤ store.length →
        (cfg.max_total_sessions ≤
            (Session.cleanup_expired_sessions cfg now store).1.length →
          Session.get_messages cfg now store sid =
            ((Session.cleanup_expired_sessions cfg now store).1,
             .error "Session limit reached") ∧
          Session.get_session (Session.get_messages cfg now store sid).1 sid =
            none) ∧
        ((Session.cleanup_expired_sessions cfg now store).1.length <
            cfg.max_total_sessions →
          Session.get_messages cfg now store sid =
            (Session.save_session (Session.cleanup_expired_sessions cfg now store).1
               (Session.newSession sid now), .ok []) ∧
          Session.get_session (Session.get_messages cfg now store sid).1 sid =
            some (Session.newSession sid now))) := by
  have hlen' : ¬ 100 < sid.length := by omega
  refine ⟨fun hlow => ?_, fun hcap => ⟨fun hstill => ?_, fun hfree => ?_⟩⟩
  · have hlow' : ¬ cfg.max_total_sessions ≤ store.length := by omega
    have heq : Session.get_messages cfg now store sid =
        (Session.save_session store (Session.newSession sid now), .ok []) := by
      unfold Session.get_messages
      simp [hid, hlen', hnew, hlow']
    refine ⟨heq, ?_⟩
    rw [heq]
    exact Session.get_session_save store (Session.newSession sid now)
  · have heq : Session.get_messages cfg now store sid =
        ((Session.cleanup_expired_sessions cfg now store).1,
         .error "Session limit reached") := by
      unfold Session.get_messages
      simp [hid, hlen', hnew, hcap, hstill]
    refine ⟨heq, ?_⟩
    rw [heq]
    exact Session.get_session_filter_none hnew _
  · have hfree' : ¬ cfg.max_total_sessions ≤
        (Session.cleanup_expired_sessions cfg now store).1.length := by omega
    have heq : Session.get_messages cfg now store sid =
        (Session.save_session (Session.cleanup_expired_sessions cfg now store).1
           (Session.newSession sid now), .ok []) := by
      unfold Session.get_messages
      simp [hid, hlen', hnew, hcap, hfree']
    refine ⟨heq, ?_⟩
    rw [heq]
    exact Session.get_session_save _ (Session.newSession sid now)

/-- A one-session store already at its (size-one) capacity, not expired
at the witness clock. -/
def c8store : Session.Storage :=
  [("a", { session_id := "a", messages := [], created_at := 0,
           last_accessed := 0, message_count := 0 })]

/-- Capacity-one configuration for the C8 witness. -/
def c8cfg : Session.SessionConfig := ⟨50, 60, 1⟩

/-- Witness for C8 at a concrete input: with the store at capacity and
nothing expired, asking for the unseen id "b" sweeps, stays at capacity,
fails with the capacity error and does not create "b". -/
theorem get_messages_capacity_witness :
    ("b" ≠ "" ∧ "b".length ≤ 100 ∧ Session.get_session c8store "b" = none ∧
      c8cfg.max_total_sessions ≤ c8store.length ∧
      c8cfg.max_total_sessions ≤
        (Session.cleanup_expired_sessions c8cfg 0 c8store).1.length) ∧
    (Session.get_messages c8cfg 0 c8store "b" =
        ((Session.cleanup_expired_sessions c8cfg 0 c8store).1,
         .error "Session limit reached") ∧
      Session.get_session (Session.get_messages c8cfg 0 c8store "b").1 "b" =
        none) :=
  ⟨⟨by decide, by decide, by decide, by decide, by decide⟩,
   ((get_messages_capacity c8cfg 0 c8store "b" (by decide) (by decide)
       (by decide)).2 (by decide)).1 (by decide)⟩

/-- C10: the search decision is a function of the question text alone —
`should_search` gives the same answer for any two chat histories,
including an absent one, because its body never reads the history
argument. -/
theorem should_search_ignores_history (question : String)
    (h₁ h₂ : Option (List Session.BaseMessage)) :
    RagAgent.should_search question h₁ = RagAgent.should_search question h₂ := rfl

/-- C6: the spec's test vectors for `should_search`, evaluated on the
code. The greeting "hello" and the news question behave as the spec says,
but "what did I just ask?" is NOT matched by any conversation keyword
("what did i ask" and "what question did i" both fail on the inserted
"just"), so the code searches where the spec requires it not to. -/
theorem should_search_spec_vectors :
    RagAgent.should_search "hello" none = false ∧
    RagAgent.should_search "what did I just ask?" none = true ∧
    RagAgent.should_search "what\x27s new with Bitcoin ETFs?" none = true := by
  refine ⟨?_, ?_, ?_⟩ <;> decide

/-- C5 counterexample: when the embedding collaborator fails (the
similarity search raises), `search` does not propagate any error — the
`except` clause swallows it and the caller receives the empty result
list, indistinguishable from "no matches". -/
theorem search_embedding_failure_cex :
    Search.search true (.error "embedding model unavailable")
      (fun _ => none) 5 none = [] := rfl

/-- C5 (amended): an embedding failure during `SearchService.search` is
caught by the surrounding exception handler and converted into an empty
result list — it never reaches the caller as an error. -/
theorem search_embedding_failure_swallowed (e : String)
    (db : Nat → Option Search.Article) (top_k : Nat)
    (date_filter : Option ℚ) :
    Search.search true (.error e) db top_k date_filter = [] := rfl

/-- C9: the staleness check is idempotent — when the collection point
count is retrievable and unchanged and loading succeeds, the second of
two consecutive check-and-reload episodes never performs a reload
(whether or not the first one did). -/
theorem reload_if_stale_idempotent (s : Search.IndexState)
    (env : Search.CorpusEnv) (n : Nat)
    (hcount : env.current_point_count = some n)
    (hexists : env.collection_exists = true)
    (hload : env.load_ok = true) :
    (Search.reload_if_stale (Search.reload_if_stale s env).1 env).2 = false := by
  by_cases h : Search.should_reload_index s env
  · have h1 : Search.reload_if_stale s env = ((Search.load_index s env).1, true) := by
      simp [Search.reload_if_stale, h]
    have h2 : (Search.load_index s env).1 = ⟨true, some n⟩ := by
      simp [Search.load_index, hexists, hload, hcount]
    have h3 : Search.should_reload_index ⟨true, some n⟩ env = false := by
      simp [Search.should_reload_index, hcount]
    rw [h1, h2]
    simp [Search.reload_if_stale, h3]
  · have h1 : Search.reload_if_stale s env = (s, false) := by
      simp [Search.reload_if_stale, h]
    rw [h1]
    simp [Search.reload_if_stale, h]

/-- Witness for C9: a service that has never loaded an index, against a
live collection of three points, reloads once; the second check is a
no-op. -/
theorem reload_if_stale_idempotent_witness :
    (Search.reload_if_stale
        (Search.reload_if_stale ⟨false, none⟩ ⟨true, some 3, true⟩).1
        ⟨true, some 3, true⟩).2 = false :=
  reload_if_stale_idempotent ⟨false, none⟩ ⟨true, some 3, true⟩ 3 rfl rfl rfl

/-- C3: when the moderation check flags a question, `ask_question` fails
with `HTTPException(400, reason)` before any stream exists, and neither
the retrieval collaborator nor the LLM is ever invoked for that
question. -/
theorem moderation_blocked_no_retrieval_or_generation
    (classifier_result : List (String × ℚ)) (openai_reasons : Option (List String))
    (question : String) (ex : AskRoute.AskStreamExec)
    (h : (Moderation.is_safe classifier_result openai_reasons question).1 = false) :
    AskRoute.ask_question classifier_result openai_reasons question ex =
      { response := .error
          (400, (Moderation.is_safe classifier_result openai_reasons question).2),
        search_invoked := false, llm_invoked := false } := by
  simp [AskRoute.ask_question, h]

/-- A concrete generator execution for the C3 witness (its contents are
irrelevant: the point is that it is never consumed). -/
def c3exec : AskRoute.AskStreamExec :=
  { session_id := none, search_results := [], history_result := .ok [],
    chunks := [], stream_error := none, persist_error := none }

/-- Witness for C3: the empty question is flagged by the basic validation
step of `is_safe`, and the request fails with a 400 without invoking
retrieval or generation. -/
theorem moderation_blocked_witness :
    (Moderation.is_safe [] none "").1 = false ∧
    AskRoute.ask_question [] none "" c3exec =
      { response := .error (400, (Moderation.is_safe [] none "").2),
        search_invoked := false, llm_invoked := false } :=
  ⟨by decide, moderation_blocked_no_retrieval_or_generation [] none "" c3exec
    (by decide)⟩

namespace Search

/-- Ascending lexicographic order on sort keys, as a proposition: this is
the order `results.sort(key=...)` establishes, i.e. score descending with
ties broken by ingestion recency descending then publication recency
descending. -/
def lexLE (p q : ℚ × ℚ × ℚ) : Prop :=
  p.1 < q.1 ∨ (p.1 = q.1 ∧ (p.2.1 < q.2.1 ∨ (p.2.1 = q.2.1 ∧ p.2.2 ≤ q.2.2)))

theorem sortLE_iff (a b : Article × ℚ) :
    sortLE a b = true ↔ lexLE (sortKey a) (sortKey b) := by
  simp [sortLE, lexLE]

theorem lexLE_trans {p q r : ℚ × ℚ × ℚ} (h₁ : lexLE p q) (h₂ : lexLE q r) :
    lexLE p r := by
  rcases h₁ with h₁ | ⟨e₁, h₁⟩
  · rcases h₂ with h₂ | ⟨e₂, _⟩
    · exact Or.inl (h₁.trans h₂)
    · exact Or.inl (h₁.trans_eq e₂)
  · rcases h₂ with h₂ | ⟨e₂, h₂⟩
    · exact Or.inl (e₁.trans_lt h₂)
    · refine Or.inr ⟨e₁.trans e₂, ?_⟩
      rcases h₁ with h₁ | ⟨f₁, h₁⟩
      · rcases h₂ with h₂ | ⟨f₂, _⟩
        · exact Or.inl (h₁.trans h₂)
        · exact Or.inl (h₁.trans_eq f₂)
      · rcases h₂ with h₂ | ⟨f₂, h₂⟩
        · exact Or.inl (f₁.trans_lt h₂)
        · exact Or.inr ⟨f₁.trans f₂, h₁.trans h₂⟩

theorem lexLE_total (p q : ℚ × ℚ × ℚ) : lexLE p q ∨ lexLE q p := by
  rcases lt_trichotomy p.1 q.1 with h | h | h
  · exact Or.inl (Or.inl h)
  · rcases lt_trichotomy p.2.1 q.2.1 with h' | h' | h'
    · exact Or.inl (Or.inr ⟨h, Or.inl h'⟩)
    · rcases le_total p.2.2 q.2.2 with h'' | h''
      · exact Or.inl (Or.inr ⟨h, Or.inr ⟨h', h''⟩⟩)
      · exact Or.inr (Or.inr ⟨h.symm, Or.inr ⟨h'.symm, h''⟩⟩)
    · exact Or.inr (Or.inr ⟨h.symm, Or.inl h'⟩)
  · exact Or.inr (Or.inl h)

theorem sortLE_trans (a b c : Article × ℚ) (h₁ : sortLE a b = true)
    (h₂ : sortLE b c = true) : sortLE a c = true :=
  (sortLE_iff a c).mpr (lexLE_trans ((sortLE_iff a b).mp h₁) ((sortLE_iff b c).mp h₂))

theorem sortLE_total (a b : Article × ℚ) : (sortLE a b || sortLE b a) = true := by
  rcases lexLE_total (sortKey a) (sortKey b) with h | h
  · simp [(sortLE_iff a b).mpr h]
  · simp [(sortLE_iff b a).mpr h]

theorem lexLE_sortKey_score {a b : Article × ℚ}
    (h : lexLE (sortKey a) (sortKey b)) : b.2 ≤ a.2 := by
  rcases h with h | ⟨e, _⟩
  · have h' : -a.2 < -b.2 := h
    exact le_of_lt (neg_lt_neg_iff.mp h')
  · have e' : -a.2 = -b.2 := e
    exact le_of_eq (neg_inj.mp e').symm

theorem search_collect_scores_bounded (db : Nat → Option Article)
    (date_filter : Option ℚ) {best : ℚ} (hbest : 0 ≤ best ∧ best ≤ 1) :
    ∀ (docs : List (DocMetadata × ℚ)) (seen : List Nat),
      (∀ p ∈ docs, 0 ≤ p.2 ∧ p.2 ≤ 1) →
      ∀ r ∈ search_collect best db date_filter docs seen,
        0 ≤ r.2 ∧ r.2 ≤ 1 := by
  intro docs
  induction docs with
  | nil =>
      intro seen _ r hr
      simp [search_collect] at hr
  | cons hd rest ih =>
      intro seen hsc r hr
      obtain ⟨⟨docid⟩, score⟩ := hd
      have hscore : 0 ≤ score ∧ score ≤ 1 :=
        hsc ({ id := docid }, score) (by simp)
      have hrest : ∀ p ∈ rest, 0 ≤ p.2 ∧ p.2 ≤ 1 :=
        fun p hp => hsc p (List.mem_cons_of_mem _ hp)
      cases docid with
      | none =>
          simp only [search_collect] at hr
          exact ih seen hrest r hr
      | some aid =>
          simp only [search_collect] at hr
          by_cases h0 : aid = 0
          · rw [if_pos h0] at hr; exact ih seen hrest r hr
          · rw [if_neg h0] at hr
            by_cases hseen : aid ∈ seen
            · rw [if_pos hseen] at hr; exact ih seen hrest r hr
            · rw [if_neg hseen] at hr
              cases hdb : db aid with
              | none =>
                  simp only [hdb] at hr
                  exact ih seen hrest r hr
              | some article =>
                  simp only [hdb] at hr
                  by_cases hdate : skipByDate date_filter article
                  · simp only [hdate, if_true] at hr
                    exact ih seen hrest r hr
                  · simp only [hdate, Bool.false_eq_true, if_false] at hr
                    rcases List.mem_cons.mp hr with hr | hr
                    · rw [hr]
                      by_cases hb : 0 < best
                      · rw [if_pos hb]
                        constructor
                        · exact le_min_iff.mpr
                            ⟨zero_le_one, div_nonneg hscore.1 hbest.1⟩
                        · exact min_le_left _ _
                      · rw [if_neg hb]
                        exact hscore
                    · exact ih (aid :: seen) hrest r hr

end Search

/-- C2: whenever the vector store honours its contract of returning
cosine-similarity scores in the unit interval, every score `search`
returns lies in `[0, 1]`, and the returned list is sorted by score
descending with ties broken by ingestion recency (`created_at`)
descending then publication recency (`published_date`) descending —
stated as the lexicographic order on the code's sort key, and, projected
to scores, as a non-increasing score sequence. -/
theorem search_scores_normalized_and_sorted
    (docs : List (Search.DocMetadata × ℚ)) (db : Nat → Option Search.Article)
    (top_k : Nat) (date_filter : Option ℚ)
    (hscores : ∀ p ∈ docs, 0 ≤ p.2 ∧ p.2 ≤ 1) :
    (∀ r ∈ Search.search true (.ok docs) db top_k date_filter,
        0 ≤ r.2 ∧ r.2 ≤ 1) ∧
    (Search.search true (.ok docs) db top_k date_filter).Pairwise
      (fun a b => Search.lexLE (Search.sortKey a) (Search.sortKey b)) ∧
    (Search.search true (.ok docs) db top_k date_filter).Pairwise
      (fun a b => b.2 ≤ a.2) := by
  cases docs with
  | nil =>
      have hempty : Search.search true (.ok []) db top_k date_filter = [] := by
        simp [Search.search, Search.search_collect]
      refine ⟨?_, ?_, ?_⟩ <;> simp [hempty]
  | cons hd rest =>
      obtain ⟨m, s⟩ := hd
      have hbest : 0 ≤ s ∧ s ≤ 1 := hscores (m, s) (by simp)
      have heq : Search.search true (.ok ((m, s) :: rest)) db top_k date_filter =
          ((Search.search_collect s db date_filter ((m, s) :: rest) []).mergeSort
            Search.sortLE).take top_k := by
        simp [Search.search]
      have hmem : ∀ r ∈ Search.search true (.ok ((m, s) :: rest)) db top_k
          date_filter,
          r ∈ Search.search_collect s db date_filter ((m, s) :: rest) [] := by
        intro r hr
        rw [heq] at hr
        exact (List.mergeSort_perm _ _).mem_iff.mp
          ((List.take_sublist _ _).subset hr)
      have hsorted := List.sorted_mergeSort Search.sortLE_trans Search.sortLE_total
        (Search.search_collect s db date_filter ((m, s) :: rest) [])
      have hpair : (Search.search true (.ok ((m, s) :: rest)) db top_k
          date_filter).Pairwise
            (fun a b => Search.lexLE (Search.sortKey a) (Search.sortKey b)) := by
        rw [heq]
        exact (List.Pairwise.sublist (List.take_sublist _ _) hsorted).imp
          (fun h => (Search.sortLE_iff _ _).mp h)
      refine ⟨?_, hpair, hpair.imp (fun h => Search.lexLE_sortKey_score h)⟩
      intro r hr
      exact Search.search_collect_scores_bounded db date_filter hbest
        ((m, s) :: rest) [] hscores r (hmem r hr)

/-- Articles for the C2 witness. -/
def c2a1 : Search.Article :=
  { id := 1, title := "t1", source := "CoinTelegraph", url := "u1",
    published_date := some 100, created_at := some 200 }

/-- Second article for the C2 witness. -/
def c2a2 : Search.Article :=
  { id := 2, title := "t2", source := "Decrypt", url := "u2",
    published_date := some 150, created_at := some 180 }

/-- Scored points returned by the vector store in the C2 witness. -/
def c2docs : List (Search.DocMetadata × ℚ) :=
  [({ id := some 1 }, 1), ({ id := some 2 }, Rat.divInt 1 2)]

/-- Article lookup for the C2 witness. -/
def c2db : Nat → Option Search.Article :=
  fun n => if n = 1 then some c2a1 else if n = 2 then some c2a2 else none

/-- Witness for C2 at a concrete corpus of two scored points. -/
theorem search_scores_normalized_and_sorted_witness :
    (∀ p ∈ c2docs, 0 ≤ p.2 ∧ p.2 ≤ 1) ∧
    ((∀ r ∈ Search.search true (.ok c2docs) c2db 5 none,
        0 ≤ r.2 ∧ r.2 ≤ 1) ∧
      (Search.search true (.ok c2docs) c2db 5 none).Pairwise
        (fun a b => Search.lexLE (Search.sortKey a) (Search.sortKey b)) ∧
      (Search.search true (.ok c2docs) c2db 5 none).Pairwise
        (fun a b => b.2 ≤ a.2)) :=
  ⟨by decide, search_scores_normalized_and_sorted c2docs c2db 5 none (by decide)⟩

/-- Best-scoring article of the C7 corpus. -/
def c7a1 : Search.Article :=
  { id := 1, title := "t1", source := "CoinTelegraph", url := "u1",
    published_date := some 100, created_at := some 200 }

/-- Barely-relevant article of the C7 corpus: its raw cosine score is
0.01, far below `similarity_threshold = 0.3`. -/
def c7a2 : Search.Article :=
  { id := 2, title := "t2", source := "Decrypt", url := "u2",
    published_date := some 150, created_at := some 180 }

/-- Scored points for the C7 run: a perfect match and a 0.01 match. -/
def c7docs : List (Search.DocMetadata × ℚ) :=
  [({ id := some 1 }, 1), ({ id := some 2 }, Rat.divInt 1 100)]

/-- Article lookup for the C7 run. -/
def c7db : Nat → Option Search.Article :=
  fun n => if n = 1 then some c7a1 else if n = 2 then some c7a2 else none

/-- C7, evaluated at the failing input: `search` applies no minimum score
threshold anywhere — the candidate whose normalized score is 0.01, far
below the configured (but never read) `similarity_threshold` of 0.3, is
returned to the caller instead of being dropped. -/
theorem search_no_minimum_score_filter :
    ∃ r ∈ Search.search true (.ok c7docs) c7db 5 none,
      r.2 < Search.similarity_threshold := by
  have hcollect : Search.search_collect 1 c7db none
      [({ id := some 1 }, (1 : ℚ)), ({ id := some 2 }, Rat.divInt 1 100)] [] =
      [(c7a1, 1), (c7a2, Rat.divInt 1 100)] := by
    simp [Search.search_collect, c7db, Search.skipByDate, div_one,
      min_eq_right (show Rat.divInt 1 100 ≤ (1 : ℚ) by decide)]
  have hsearch : Search.search true (.ok c7docs) c7db 5 none =
      (List.mergeSort [(c7a1, 1), (c7a2, Rat.divInt 1 100)]
        Search.sortLE).take 5 := by
    simp only [Search.search, c7docs, Bool.not_true, Bool.false_eq_true,
      if_false]
    rw [hcollect]
  rw [hsearch, List.take_of_length_le (by simp [List.length_mergeSort])]
  refine ⟨(c7a2, Rat.divInt 1 100), ?_, by decide⟩
  exact (List.mergeSort_perm _ _).mem_iff.mpr (by simp)

namespace Sse

theorem tailEvents_singleton (session_id : Option String) (full_response : String)
    (stream_error persist_error : Option String) :
    ∃ t, tailEvents session_id full_response stream_error persist_error = [t] ∧
      isTerminal t = true := by
  cases stream_error with
  | some e => exact ⟨.errorEvent e, rfl, rfl⟩
  | none =>
      by_cases h : session_id.isSome ∧ full_response ≠ ""
      · cases persist_error with
        | some e => exact ⟨.errorEvent e, by simp [tailEvents, h], rfl⟩
        | none => exact ⟨.doneSentinel, by simp [tailEvents, h], rfl⟩
      · exact ⟨.doneSentinel, by simp [tailEvents, h], rfl⟩

theorem frameOf_wellformed (e : SSEEvent) :
    ∃ body, frameOf e = "data: " ++ body ++ "\n\n" ∧
      (body = "[DONE]" ∨ ∃ j : Wire.Json, body = j.render) := by
  cases e with
  | sources d => exact ⟨_, rfl, .inr ⟨_, rfl⟩⟩
  | content c => exact ⟨_, rfl, .inr ⟨_, rfl⟩⟩
  | errorEvent m => exact ⟨_, rfl, .inr ⟨_, rfl⟩⟩
  | doneSentinel => exact ⟨_, rfl, .inl rfl⟩

end Sse

/-- C4: every frame the sse.py generator emits has the wire shape
`data: <payload>\n\n` where the payload is a `json.dumps` rendering or
the `[DONE]` sentinel, and every execution of the generator ends with
exactly one terminal frame (a `[DONE]` or a single `error` frame) with
all earlier frames non-terminal. -/
theorem sse_stream_framing (ex : Sse.StreamExec) :
    (∃ mid last, Sse.generate_sse_response ex = mid ++ [last] ∧
        Sse.isTerminal last = true ∧ ∀ e ∈ mid, Sse.isTerminal e = false) ∧
    (∀ f ∈ Sse.sse_frames ex, ∃ body, f = "data: " ++ body ++ "\n\n" ∧
        (body = "[DONE]" ∨ ∃ j : Wire.Json, body = j.render)) := by
  constructor
  · obtain ⟨sid, hist, src, chunks, serr, perr⟩ := ex
    obtain ⟨t, ht, hterm⟩ := Sse.tailEvents_singleton sid
      (String.join (chunks.filter (fun c => c ≠ ""))) serr perr
    have hmid : ∀ e ∈ Sse.SSEEvent.sources src ::
        (chunks.filter (fun c => c ≠ "")).map Sse.SSEEvent.content,
        Sse.isTerminal e = false := by
      intro e he
      rcases List.mem_cons.mp he with rfl | he
      · rfl
      · obtain ⟨c, _, rfl⟩ := List.mem_map.mp he
        rfl
    rcases sid with _ | s
    · refine ⟨_, t, ?_, hterm, hmid⟩
      simp only [Sse.generate_sse_response]
      rw [ht]
    · rcases hist with e | msgs
      · exact ⟨[], .errorEvent e, rfl, rfl, by simp⟩
      · refine ⟨_, t, ?_, hterm, hmid⟩
        simp only [Sse.generate_sse_response]
        rw [ht]
  · intro f hf
    simp only [Sse.sse_frames] at hf
    obtain ⟨e, _, rfl⟩ := List.mem_map.mp hf
    exact Sse.frameOf_wellformed e

/-- A concrete generator execution for the C4 witness: one session, two
chunks (one empty), no failures. -/
def c4exec : Sse.StreamExec :=
  { session_id := some "s1", history_result := .ok [],
    sources_data := [], chunks := ["Hello", ""], stream_error := none,
    persist_error := none }

/-- Witness for C4 at a concrete execution. -/
theorem sse_stream_framing_witness :
    (∃ mid last, Sse.generate_sse_response c4exec = mid ++ [last] ∧
        Sse.isTerminal last = true ∧ ∀ e ∈ mid, Sse.isTerminal e = false) ∧
    (∀ f ∈ Sse.sse_frames c4exec, ∃ body, f = "data: " ++ body ++ "\n\n" ∧
        (body = "[DONE]" ∨ ∃ j : Wire.Json, body = j.render)) :=
  sse_stream_framing c4exec
